import Mathlib

/-!
Shallow embedding of the `nasafinal` repository: the NASA debris REST client,
the blockchain REST client with its signed-transaction submission path, the
wallet hook, and the per-frame animation functions of the 3D scene components.

Conventions of the embedding:
* A fetch call is reflected as a `Request` value; a method that performs one
  fetch returns a one-element request list together with its result, so that
  request-counting properties are statements about the returned list.
* The HTTP `Response` object is reflected as `HttpResponse`: its `ok` flag and
  its already-parsed JSON body (`response.json()` is assumed to succeed; parse
  failures are outside the scope of the claims).
* JavaScript truthiness on optional parameters: a missing value (`none`) and
  the number `0` (resp. the empty string) are falsy; everything else is truthy.
* JavaScript numbers are modelled as `Int` where the code only ever holds
  integral values, and as `ℚ` in the animation code, where only determinism
  (not rounding) is at stake.
-/

namespace Nasafinal

/-- A query string, as built by successive `URLSearchParams.set` calls
(all keys set in this codebase are distinct, so a list of key-value pairs in
insertion order determines the serialized query exactly). -/
abbrev Query := List (String × String)

/-- One HTTP request issued through `fetch`. -/
structure Request where
  path : String
  query : Query
  method : String := "GET"
  bodyJson : Option String := none
  deriving Repr, DecidableEq

/-- A fetch `Response`: its `ok` status flag and its parsed JSON body. -/
structure HttpResponse (β : Type) where
  ok : Bool
  body : β

/-- JS truthiness of an optional number (`undefined` and `0` are falsy). -/
def truthyInt : Option Int → Bool
  | none => false
  | some n => n != 0

/-- JS truthiness of an optional string (`undefined` and `""` are falsy). -/
def truthyStr : Option String → Bool
  | none => false
  | some s => s != ""

/-! ## NASA debris client (`NASADebrisClient`) -/

/-- The fields of `DebrisObject` that the claims touch; the record is a plain
descriptive record, carried through unchanged by the client. -/
structure DebrisObject where
  id : String
  name : String
  size : Int
  type : String
  deriving Repr, DecidableEq

structure NASADebrisResponse where
  data : List DebrisObject
  totalCount : Int
  lastUpdated : String
  deriving Repr, DecidableEq

/-- Parameters of `NASADebrisClient.getDebrisData`. `none` is an absent field. -/
structure DebrisParams where
  altitude : Option (Int × Int) := none
  size : Option (Int × Int) := none
  limit : Option Int := none
  type : Option (List String) := none

/-- The query string built by `getDebrisData`: `limit` when truthy, then
`altitudeMin`/`altitudeMax` when the `altitude` array is present (an array is
always truthy). The `size` and `type` parameters are never consulted. -/
def debrisQuery (p : DebrisParams) : Query :=
  (if truthyInt p.limit then [("limit", toString (p.limit.getD 0))] else []) ++
  (match p.altitude with
   | some alt => [("altitudeMin", toString alt.1), ("altitudeMax", toString alt.2)]
   | none => [])

/-- `NASADebrisClient.getDebrisData`: one fetch of `/api/nasa/debris` with the
built query; throws `"Failed to fetch debris data"` when the response is not
ok, otherwise returns the parsed body. -/
def getDebrisData (p : DebrisParams) (resp : HttpResponse NASADebrisResponse) :
    List Request × Except String NASADebrisResponse :=
  ([{ path := "/api/nasa/debris", query := debrisQuery p }],
   if resp.ok then .ok resp.body else .error ("Failed to fetch debris data"))

structure DebrisStatistics where
  totalObjects : Int
  trackableObjects : Int
  collisionRisk : String
  lastUpdate : String
  deriving Repr, DecidableEq

/-- `NASADebrisClient.getDebrisStatistics`: one fetch of `/api/nasa/statistics`;
throws `"Failed to fetch debris statistics"` when the response is not ok. -/
def getDebrisStatistics (resp : HttpResponse DebrisStatistics) :
    List Request × Except String DebrisStatistics :=
  ([{ path := "/api/nasa/statistics", query := [] }],
   if resp.ok then .ok resp.body else .error ("Failed to fetch debris statistics"))

/-! ## Blockchain client data model -/

/-- `TransactionMetadataValue`: `string | number | boolean | null` (numbers in
the metadata are modelled as integers). -/
inductive MetaValue where
  | s (v : String)
  | n (v : Int)
  | b (v : Bool)
  | null
  deriving Repr, DecidableEq

/-- `TransactionMetadata`: a record, i.e. a list of key-value pairs in
insertion order. -/
abbrev TransactionMetadata := List (String × MetaValue)

/-- The `Transaction` interface. The union-typed `type` and `status` fields
are carried as strings. -/
structure Transaction where
  id : String
  type : String
  timestamp : String
  blockHeight : Int
  hash : String
  «from» : String
  «to» : String
  data : TransactionMetadata
  status : String
  gasUsed : Int
  signature : String
  deriving Repr, DecidableEq

/-- The `Block` interface. -/
structure Block where
  height : Int
  hash : String
  timestamp : String
  previousHash : String
  merkleRoot : String
  transactions : List String
  validator : String
  gasUsed : Int
  gasLimit : Int
  difficulty : Int
  nonce : Int
  size : Int
  deriving Repr, DecidableEq

/-- The `SmartContract` interface (fields the claims touch). -/
structure SmartContract where
  address : String
  name : String
  type : String
  status : String
  deriving Repr, DecidableEq

/-- `ContractCallParameter`: `string | number | boolean | null | object`; the
opaque `Record<string, unknown>` case is abstracted by its JSON rendering. -/
inductive CallParam where
  | s (v : String)
  | n (v : Int)
  | b (v : Bool)
  | null
  | obj (json : String)
  deriving Repr, DecidableEq

structure ContractExecutionResult where
  transactionHash : String
  contractAddress : String
  functionName : String
  gasUsed : Int
  status : String
  blockNumber : Option Int
  deriving Repr, DecidableEq

/-- `BlockchainAnalytics` is a large plain record the client passes through
untouched; its contents are abstracted to a single opaque payload string. -/
structure BlockchainAnalytics where
  payload : String
  deriving Repr, DecidableEq

/-! ## JSON serialization (`JSON.stringify` of the transaction payload)

`createTransaction` destructures `const { signature, ...payload } = txData`
and serializes `payload` with `JSON.stringify`; the key order follows the
declaration order of the fields (`type`, `data`, `from`, `to`, `timestamp`).
String escaping handles the quote and backslash characters; control-character
escapes never arise in the claims and are omitted. -/

def jsonEscapeChar (c : Char) : String :=
  if c = '\\' then "\\\\" else if c = '"' then "\\\"" else String.singleton c

def jsonEscape (s : String) : String :=
  String.join (s.toList.map jsonEscapeChar)

def jsonOfString (s : String) : String := "\"" ++ jsonEscape s ++ "\""

def jsonOfMetaValue : MetaValue → String
  | .s v => jsonOfString v
  | .n v => toString v
  | .b true => "true"
  | .b false => "false"
  | .null => "null"

def jsonOfMetadata (d : TransactionMetadata) : String :=
  "\x7b" ++
    String.intercalate (",")
      (d.map fun kv => jsonOfString kv.1 ++ ":" ++ jsonOfMetaValue kv.2) ++
  "\x7d"

/-- The input of `createTransaction` (`txData`). -/
structure TxInput where
  type : String
  data : TransactionMetadata
  «from» : String
  «to» : String
  timestamp : Int
  signature : String
  deriving Repr, DecidableEq

/-- `JSON.stringify(payload)` where `payload` is `txData` without its
`signature` field. -/
def payloadMessage (tx : TxInput) : String :=
  "\x7b\"type\":" ++ jsonOfString tx.type ++
  ",\"data\":" ++ jsonOfMetadata tx.data ++
  ",\"from\":" ++ jsonOfString tx.«from» ++
  ",\"to\":" ++ jsonOfString tx.«to» ++
  ",\"timestamp\":" ++ toString tx.timestamp ++ "\x7d"

/-! ## Blockchain client state and `createTransaction`

`BlockchainClient` holds `private blocks: Block[] = []` and
`private transactions: Transaction[] = []`; only `createTransaction` ever
mentions them, and only after its signature check succeeds. -/

/-- The mutable fields of a `BlockchainClient` instance. -/
structure ClientState where
  blocks : List Block
  transactions : List Transaction
  deriving Repr, DecidableEq

/-- The state set up by the constructor: both arrays empty. -/
def initClientState : ClientState := { blocks := [], transactions := [] }

/-- The `try`/`catch` block of `createTransaction`: `ethers.verifyMessage`
(reflected as the ambient `recover` function, `none` meaning the recovery
threw) followed by the case-insensitive comparison with the `from` address.
Both the recovery exception and the explicit mismatch `throw` are caught by
the `catch`, which rethrows `"Invalid signature."`. -/
def signatureCheck (recover : String → String → Option String)
    (message fromAddr sig : String) : Except String Unit :=
  match recover message sig with
  | none => .error ("Invalid signature.")
  | some a => if a.toLower = fromAddr.toLower then .ok () else .error ("Invalid signature.")

/-- `BlockchainClient.createTransaction`. Ambient effects are passed in
explicitly: `recover` reflects `ethers.verifyMessage`, `ethersId` reflects
`ethers.id`, `randTag` the `Math.random().toString(36).substring(2, 10)` id
tag, `now` the `Date.now()` value. The method performs no fetch, so its
request list is empty. After the signature check it reads
`this.blocks[this.blocks.length - 1].height`; on the empty `blocks` array the
indexing yields `undefined` and the `.height` access throws a `TypeError`
(reflected as an error result), before `this.transactions` is touched. -/
def createTransaction (recover : String → String → Option String)
    (ethersId : String → String) (randTag : String) (now : Int)
    (st : ClientState) (tx : TxInput) :
    List Request × Except String (ClientState × Bool) :=
  ([],
   match signatureCheck recover (payloadMessage tx) tx.«from» tx.signature with
   | .error e => .error e
   | .ok _ =>
     match st.blocks.getLast? with
     | none => .error ("TypeError: cannot read properties of undefined")
     | some lastBlock =>
       let newTx : Transaction :=
         { id := "tx_" ++ randTag
           type := tx.type
           timestamp := toString tx.timestamp
           blockHeight := lastBlock.height
           hash := ethersId (payloadMessage tx ++ toString now)
           «from» := tx.«from»
           «to» := tx.«to»
           data := tx.data
           status := "confirmed"
           gasUsed := 21000
           signature := tx.signature }
       .ok ({ st with transactions := newTx :: st.transactions }, true))

/-- One state-affecting client call. The five request methods
(`getTransactions`, `getBlocks`, `getSmartContracts`, `executeContract`,
`getAnalytics`) never read or write `this.blocks` / `this.transactions` —
their Lean counterparts below do not take a `ClientState` — so
`createTransaction` is the only operation that can change the state. -/
structure ClientOp where
  recover : String → String → Option String
  ethersId : String → String
  randTag : String
  now : Int
  tx : TxInput

/-- State transition of one `createTransaction` call: on success the new
state, on a thrown error the state as the method left it (errors are thrown
before any mutation). -/
def applyOp (st : ClientState) (op : ClientOp) : ClientState :=
  match (createTransaction op.recover op.ethersId op.randTag op.now st op.tx).2 with
  | .ok (st', _) => st'
  | .error _ => st

/-! ## Blockchain client request methods -/

/-- Parameters of `getTransactions`. -/
structure TxQueryParams where
  type : Option String := none
  status : Option String := none
  limit : Option Int := none

/-- Query built by `getTransactions`: `type`, `status`, `limit`, each set only
when truthy. -/
def transactionsQuery (p : TxQueryParams) : Query :=
  (if truthyStr p.type then [("type", p.type.getD "")] else []) ++
  (if truthyStr p.status then [("status", p.status.getD "")] else []) ++
  (if truthyInt p.limit then [("limit", toString (p.limit.getD 0))] else [])

/-- The parsed response body of `/transactions`. -/
structure TransactionsEnvelope where
  success : Bool
  data : List Transaction
  total : Int
  error : Option String := none

/-- `BlockchainClient.getTransactions`: one fetch of
`baseUrl + "/transactions"`; throws `result.error` when the body's `success`
flag is false (the HTTP status flag is never consulted). -/
def getTransactions (baseUrl : String) (p : TxQueryParams)
    (resp : HttpResponse TransactionsEnvelope) :
    List Request × Except (Option String) (List Transaction × Int) :=
  ([{ path := baseUrl ++ "/transactions", query := transactionsQuery p }],
   if resp.body.success then .ok (resp.body.data, resp.body.total)
   else .error resp.body.error)

/-- Parameters of `getBlocks`. -/
structure BlocksParams where
  limit : Option Int := none
  height : Option Int := none

/-- Query built by `getBlocks`: `limit` then `height`, each set only when
truthy. -/
def blocksQuery (p : BlocksParams) : Query :=
  (if truthyInt p.limit then [("limit", toString (p.limit.getD 0))] else []) ++
  (if truthyInt p.height then [("height", toString (p.height.getD 0))] else [])

/-- The `Block | Block[]` union in the `/blocks` response. -/
inductive BlocksData where
  | one (b : Block)
  | many (bs : List Block)
  deriving Repr, DecidableEq

/-- The parsed response body of `/blocks`. -/
structure BlocksEnvelope where
  success : Bool
  data : BlocksData
  total : Option Int := none
  error : Option String := none

/-- `BlockchainClient.getBlocks`: one fetch of `baseUrl + "/blocks"`; throws
`result.error` when the body's `success` flag is false, otherwise returns
`result.data` and `result.total` exactly as received. -/
def getBlocks (baseUrl : String) (p : BlocksParams)
    (resp : HttpResponse BlocksEnvelope) :
    List Request × Except (Option String) (BlocksData × Option Int) :=
  ([{ path := baseUrl ++ "/blocks", query := blocksQuery p }],
   if resp.body.success then .ok (resp.body.data, resp.body.total)
   else .error resp.body.error)

/-- Parameters of `getSmartContracts`. -/
structure ContractsParams where
  type : Option String := none
  address : Option String := none

def contractsQuery (p : ContractsParams) : Query :=
  (if truthyStr p.type then [("type", p.type.getD "")] else []) ++
  (if truthyStr p.address then [("address", p.address.getD "")] else [])

/-- The `SmartContract | SmartContract[]` union in the response. -/
inductive ContractsData where
  | one (c : SmartContract)
  | many (cs : List SmartContract)
  deriving Repr, DecidableEq

structure ContractsEnvelope where
  success : Bool
  data : ContractsData
  total : Option Int := none
  error : Option String := none

/-- `BlockchainClient.getSmartContracts`: one fetch of
`baseUrl + "/smart-contracts"`; throws `result.error` when `success` is
false. -/
def getSmartContracts (baseUrl : String) (p : ContractsParams)
    (resp : HttpResponse ContractsEnvelope) :
    List Request × Except (Option String) (ContractsData × Option Int) :=
  ([{ path := baseUrl ++ "/smart-contracts", query := contractsQuery p }],
   if resp.body.success then .ok (resp.body.data, resp.body.total)
   else .error resp.body.error)

/-- Parameters of `executeContract` (also its POST body). -/
structure ExecParams where
  contractAddress : String
  functionName : String
  parameters : List CallParam
  deriving Repr, DecidableEq

def jsonOfCallParam : CallParam → String
  | .s v => jsonOfString v
  | .n v => toString v
  | .b true => "true"
  | .b false => "false"
  | .null => "null"
  | .obj j => j

/-- `JSON.stringify(params)` for the POST body of `executeContract`. -/
def execBodyJson (p : ExecParams) : String :=
  "\x7b\"contractAddress\":" ++ jsonOfString p.contractAddress ++
  ",\"functionName\":" ++ jsonOfString p.functionName ++
  ",\"parameters\":[" ++
    String.intercalate (",") (p.parameters.map jsonOfCallParam) ++ "]\x7d"

structure ExecEnvelope where
  success : Bool
  data : ContractExecutionResult
  error : Option String := none

/-- `BlockchainClient.executeContract`: one POST to
`baseUrl + "/smart-contracts"`; throws `result.error` when `success` is
false, otherwise returns `result.data`. -/
def executeContract (baseUrl : String) (p : ExecParams)
    (resp : HttpResponse ExecEnvelope) :
    List Request × Except (Option String) ContractExecutionResult :=
  ([{ path := baseUrl ++ "/smart-contracts", query := [],
      method := "POST", bodyJson := some (execBodyJson p) }],
   if resp.body.success then .ok resp.body.data else .error resp.body.error)

structure AnalyticsEnvelope where
  success : Bool
  data : BlockchainAnalytics
  error : Option String := none

/-- `BlockchainClient.getAnalytics`: one fetch of
`baseUrl + "/analytics?timeframe=" + timeframe` (the parameter defaults to
`"7d"`); throws `result.error` when `success` is false. -/
def getAnalytics (baseUrl : String) (timeframe : String)
    (resp : HttpResponse AnalyticsEnvelope) :
    List Request × Except (Option String) BlockchainAnalytics :=
  ([{ path := baseUrl ++ "/analytics", query := [("timeframe", timeframe)] }],
   if resp.body.success then .ok resp.body.data else .error resp.body.error)

/-! ## Signature scheme abstraction (for the valid-signature direction)

`ethers.verifyMessage` recovers the signer address of an EIP-191 personal
signature. The library is external to the repository, so its cryptographic
contract is reflected as a structure: a signing function, the address derived
from a private key, and a recovery function that inverts signing. -/

structure SigScheme where
  PrivKey : Type
  sign : PrivKey → String → String
  addressOf : PrivKey → String
  recover : String → String → Option String
  recover_sign : ∀ k m, recover m (sign k m) = some (addressOf k)

/-- A degenerate concrete scheme (the signature is the signer's address and
recovery returns it), used to instantiate theorems about the scheme at a
concrete input. -/
def idSigScheme : SigScheme where
  PrivKey := String
  sign k _ := k
  addressOf k := k
  recover _ s := some s
  recover_sign _ _ := rfl

/-! ## Wallet hook (`useWallet`)

The mount effect of `useWallet`, with browser storage and `ethers` reflected
as explicit inputs: `stored` is `localStorage.getItem("orbital-privateKey")`
(`none` for `null`), `newKey` the private key of the `ethers.Wallet.createRandom()`
wallet, and `validKey` decides whether `new ethers.Wallet(pk)` succeeds (it
throws on a malformed key, which the hook catches, leaving the wallet `null`).
A wallet value is identified by its private key. The result is the storage
value under `"orbital-privateKey"` after the effect and the wallet the hook
ends up exposing (`none` for `null`). -/

structure WalletOutcome where
  storedAfter : Option String
  wallet : Option String
  deriving Repr, DecidableEq

def useWalletEffect (validKey : String → Bool) (newKey : String)
    (stored : Option String) : WalletOutcome :=
  match stored with
  | none => { storedAfter := some newKey, wallet := some newKey }
  | some pk =>
    if pk = "" then
      -- `if (!privateKey)`: the empty string is falsy, so the hook takes the
      -- create-and-store branch even though a value is stored.
      { storedAfter := some newKey, wallet := some newKey }
    else if validKey pk then
      { storedAfter := some pk, wallet := some pk }
    else
      -- `new ethers.Wallet(pk)` threw; the catch logs and the wallet stays null.
      { storedAfter := some pk, wallet := none }

/-! ## 3D scene per-frame animation

Each component's `useFrame` callback is reflected as a function from the
elapsed time and the component's retained state to the new state and the
frame's outputs (geometry transforms and HUD values). Numbers are `ℚ`; the
trigonometric functions of `Math` are an ambient parameter `T : Trig`, since
the claims concern only which inputs the frame outputs depend on. Values the
code reads from the environment at render time (`Date.now()`, `Math.random()`)
are explicit inputs. -/

structure Trig where
  sin : ℚ → ℚ
  cos : ℚ → ℚ

/-- A trivial trig model for concrete evaluation. -/
def constTrig : Trig := { sin := fun _ => 0, cos := fun _ => 0 }

/-- Retained state of a `RoboticArm` instance: the random animation phase
fixed at mount (`useRef(Math.random() * Math.PI * 2)`) and the memoized HUD
progress (`lastHudProgressRef`). -/
structure ArmState where
  phase : ℚ
  lastHudProgress : Int
  deriving Repr, DecidableEq

/-- Geometry transforms and HUD output written by one active `RoboticArm`
frame. -/
structure ArmOutputs where
  armRotY : ℚ
  joint1RotZ : ℚ
  joint2RotX : ℚ
  effectorScaleX : ℚ
  effectorEmissive : ℚ
  hudProgress : Int
  deriving Repr, DecidableEq

/-- The `useFrame` callback of `RoboticArm`. Inactive frames reset the HUD
progress and write nothing; active frames assign every transform absolutely
from the elapsed time and the fixed phase. -/
def armFrame (T : Trig) (time : ℚ) (isActive : Bool) (s : ArmState) :
    ArmState × Option ArmOutputs :=
  if !isActive then
    ({ s with lastHudProgress := 0 }, none)
  else
    let phase := s.phase
    let hudProgress := ⌊(T.sin (time * 0.6 + phase) + 1) * 50⌋
    ({ s with lastHudProgress := hudProgress },
     some { armRotY := T.sin (time * 0.4 + phase) * 0.5
            joint1RotZ := T.cos (time * 0.6 + phase) * 0.3
            joint2RotX := T.sin (time * 0.8 + phase) * 0.4
            effectorScaleX := 1 + T.sin (time * 2 + phase) * 0.2
            effectorEmissive := 0.3 + T.sin (time * 3 + phase) * 0.2
            hudProgress := hudProgress })

/-- Retained state of a `Furnace` instance: the processing ring's rotation,
which the frame callback increments (`rotation.y += 0.03`). -/
structure FurnaceState where
  processingRotY : ℚ
  deriving Repr, DecidableEq

/-- Transforms and HUD output of one active `Furnace` frame. The HUD text
reads `Date.now()` and `Math.random()` at render time, reflected as the
inputs `now` and `rnd`. -/
structure FurnaceOutputs where
  glowEmissive : ℚ
  glowScale : ℚ
  processingRotY : ℚ
  processingEmissive : ℚ
  outputPosY : ℚ
  hudTemp : Int
  hudOutput : Int
  deriving Repr, DecidableEq

/-- The `useFrame` callback of `Furnace` (plus its HUD rendering). The
processing ring rotation is incremented from its retained value rather than
computed from the elapsed time. -/
def furnaceFrame (T : Trig) (time : ℚ) (isActive : Bool) (now rnd : ℚ)
    (s : FurnaceState) : FurnaceState × Option FurnaceOutputs :=
  if !isActive then
    (s, none)
  else
    let newRot := s.processingRotY + 0.03
    ({ processingRotY := newRot },
     some { glowEmissive := 0.6 + T.sin (time * 3) * 0.3
            glowScale := 1 + T.sin (time * 2) * 0.05
            processingRotY := newRot
            processingEmissive := 0.3 + T.sin (time * 4) * 0.2
            outputPosY := 0.1 + T.sin (time * 1.5) * 0.02
            hudTemp := 1650 + ⌊T.sin (now * 0.01) * 50⌋
            hudOutput := ⌊rnd * 50⌋ + 25 })

/-- Retained state of a `Printer3D` instance: the memoized HUD progress
(`lastProgressRef`). -/
structure PrinterState where
  lastProgress : Int
  deriving Repr, DecidableEq

/-- Transforms and HUD output of one active `Printer3D` frame. -/
structure PrinterOutputs where
  extruderPosX : ℚ
  extruderPosY : ℚ
  extruderPosZ : ℚ
  printScaleY : ℚ
  printPosY : ℚ
  hudProgress : Int
  deriving Repr, DecidableEq

/-- The `useFrame` callback of `Printer3D`: every transform is assigned
absolutely from the elapsed time. -/
def printerFrame (T : Trig) (time : ℚ) (isActive : Bool) (s : PrinterState) :
    PrinterState × Option PrinterOutputs :=
  if !isActive then
    (s, none)
  else
    let layer := ⌊time * 0.5⌋ % 10
    let progress := (T.sin (time * 0.3) + 1) * 0.5
    let normalizedProgress := ⌊progress * 100⌋
    ({ lastProgress := normalizedProgress },
     some { extruderPosX := T.sin (time * 2) * 0.15
            extruderPosY := 0.3 - (layer : ℚ) * 0.02
            extruderPosZ := T.cos (time * 1.8) * 0.15
            printScaleY := progress
            printPosY := -0.05 + progress * 0.05
            hudProgress := normalizedProgress })

/-- Retained state of a `DebrisCollectionArm` instance: the scanner and the
captured-debris rotations, which the frame callback increments. -/
structure DebrisArmState where
  scannerRotZ : ℚ
  debrisRotX : ℚ
  debrisRotY : ℚ
  deriving Repr, DecidableEq

/-- Transforms and HUD output of one active `DebrisCollectionArm` frame; the
HUD object count reads `Math.random()` at render time (`rnd`). -/
structure DebrisArmOutputs where
  armRotY : ℚ
  scannerRotZ : ℚ
  scannerEmissive : ℚ
  magnetEmissive : ℚ
  debrisPosY : ℚ
  debrisRotX : ℚ
  debrisRotY : ℚ
  hudObjects : Int
  deriving Repr, DecidableEq

/-- The `useFrame` callback of `DebrisCollectionArm` (plus its HUD): the
scanner and debris rotations are incremented from their retained values. -/
def debrisArmFrame (T : Trig) (time : ℚ) (isActive : Bool) (rnd : ℚ)
    (s : DebrisArmState) : DebrisArmState × Option DebrisArmOutputs :=
  if !isActive then
    (s, none)
  else
    let scannerRotZ := s.scannerRotZ + 0.05
    let debrisRotX := s.debrisRotX + 0.02
    let debrisRotY := s.debrisRotY + 0.01
    ({ scannerRotZ := scannerRotZ, debrisRotX := debrisRotX, debrisRotY := debrisRotY },
     some { armRotY := T.sin (time * 0.3) * 1.2
            scannerRotZ := scannerRotZ
            scannerEmissive := 0.5 + T.sin (time * 4) * 0.3
            magnetEmissive := 0.3 + T.sin (time * 2) * 0.2
            debrisPosY := -0.2 + T.sin (time * 0.8) * 0.1
            debrisRotX := debrisRotX
            debrisRotY := debrisRotY
            hudObjects := ⌊rnd * 15⌋ + 5 })

/-! ## Spec-side predicates and sample inputs -/

/-- Spec-side notion of hash chaining (never computed by the client): each
block's `previousHash` equals the preceding block's `hash`. -/
def hashChainOk : List Block → Bool
  | [] => true
  | [_] => true
  | a :: b :: rest => (b.previousHash == a.hash) && hashChainOk (b :: rest)

/-- A sample transaction submission input. -/
def txSample : TxInput :=
  { type := "debris_capture"
    data := [("satellite", MetaValue.s ("HERMES-1")), ("quantity", MetaValue.n 3)]
    «from» := "0xAb"
    «to» := "0xCd"
    timestamp := 1700000000000
    signature := "0xsig" }

/-- `txSample` with sender `"0xab"`, signed under `idSigScheme` with the key
`"0xab"` (whose address is the declared sender). -/
def txSampleSigned : TxInput :=
  { txSample with
    «from» := "0xab"
    signature :=
      idSigScheme.sign ("0xab") (payloadMessage { txSample with «from» := "0xab" }) }

/-- A sample block. -/
def blockSample : Block :=
  { height := 7, hash := "0xh7", timestamp := "t", previousHash := "0xh6"
    merkleRoot := "0xm", transactions := [], validator := "v"
    gasUsed := 0, gasLimit := 0, difficulty := 0, nonce := 0, size := 0 }

/-- A pair of blocks that violates hash chaining (`previousHash` of the second
is unrelated to the hash of the first). -/
def unchainedBlocks : List Block :=
  [blockSample, { blockSample with height := 8, hash := "0xh8", previousHash := "0xBOGUS" }]

/-- A `/blocks` response body that reports success but whose blocks violate
hash chaining. -/
def unchainedEnvelope : BlocksEnvelope :=
  { success := true, data := BlocksData.many unchainedBlocks, total := some 2 }

/-! # Theorems -/

/-! ## C1: invalid signatures are rejected -/

/-- Claim C1: `BlockchainClient.createTransaction` serializes the payload (all
fields except the signature) to JSON, recovers a signer address from the
signature over that message, and throws `"Invalid signature."` whenever the
recovered address does not case-insensitively match the payload's `from`
address, or whenever recovery itself fails. -/
theorem createTransaction_rejects_invalid_signature
    (recover : String → String → Option String) (ethersId : String → String)
    (randTag : String) (now : Int) (st : ClientState) (tx : TxInput)
    (h : recover (payloadMessage tx) tx.signature = none ∨
         ∃ a, recover (payloadMessage tx) tx.signature = some a ∧
              a.toLower ≠ tx.«from».toLower) :
    (createTransaction recover ethersId randTag now st tx).2 =
      Except.error ("Invalid signature.") := by
  rcases h with h | ⟨a, ha, hne⟩
  · simp [createTransaction, signatureCheck, h]
  · simp [createTransaction, signatureCheck, ha, hne]

/-- Witness for C1 at a concrete input: a recovery function that always fails
(an unparseable signature) makes the submission throw `"Invalid signature."`. -/
theorem createTransaction_rejects_invalid_signature_witness :
    (createTransaction (fun _ _ => none) (fun s => s) "ab12cd34" 0
        initClientState txSample).2 = Except.error ("Invalid signature.") :=
  createTransaction_rejects_invalid_signature _ _ _ _ _ _ (Or.inl rfl)

/-! ## C2: valid signatures pass the check -/

/-- Claim C2: for a payload signed with the key of the declared sender (a
signature over the canonical JSON serialization of the payload, under any
signature scheme satisfying the recovery contract of `ethers.verifyMessage`),
the recovered address equals the declared `from` address up to letter case and
the signature check of `createTransaction` passes. -/
theorem createTransaction_accepts_valid_signature (S : SigScheme) (k : S.PrivKey)
    (tx : TxInput)
    (hsig : tx.signature = S.sign k (payloadMessage tx))
    (haddr : tx.«from».toLower = (S.addressOf k).toLower) :
    S.recover (payloadMessage tx) tx.signature = some (S.addressOf k) ∧
    (S.addressOf k).toLower = tx.«from».toLower ∧
    signatureCheck S.recover (payloadMessage tx) tx.«from» tx.signature =
      Except.ok () := by
  refine ⟨by rw [hsig, S.recover_sign], haddr.symm, ?_⟩
  unfold signatureCheck
  rw [hsig, S.recover_sign]
  simp [haddr]

/-- Witness for C2 at a concrete input: `txSampleSigned` is signed under
`idSigScheme` with the key `"0xab"`, whose address matches the declared
sender, and the check passes. -/
theorem createTransaction_accepts_valid_signature_witness :
    idSigScheme.recover (payloadMessage txSampleSigned) txSampleSigned.signature =
      some (idSigScheme.addressOf ("0xab")) ∧
    (idSigScheme.addressOf ("0xab")).toLower = txSampleSigned.«from».toLower ∧
    signatureCheck idSigScheme.recover (payloadMessage txSampleSigned)
      txSampleSigned.«from» txSampleSigned.signature = Except.ok () :=
  createTransaction_accepts_valid_signature idSigScheme ("0xab") txSampleSigned
    rfl rfl

/-! ## C3: `createTransaction` can never succeed -/

/-- When the stored `blocks` array is empty, `createTransaction` throws: either
at the signature check, or at the `this.blocks[this.blocks.length - 1].height`
access on the empty array. -/
theorem createTransaction_error_of_no_blocks
    (recover : String → String → Option String) (ethersId : String → String)
    (randTag : String) (now : Int) (st : ClientState) (tx : TxInput)
    (h : st.blocks = []) :
    ∃ msg, (createTransaction recover ethersId randTag now st tx).2 =
      Except.error msg := by
  unfold createTransaction
  cases hc : signatureCheck recover (payloadMessage tx) tx.«from» tx.signature with
  | error e => exact ⟨e, by simp [hc]⟩
  | ok _ =>
    exact ⟨"TypeError: cannot read properties of undefined", by simp [hc, h]⟩

/-- A `createTransaction` call from a state with no blocks leaves the state
unchanged (it throws before `this.transactions.unshift`). -/
theorem applyOp_of_no_blocks (st : ClientState) (op : ClientOp)
    (h : st.blocks = []) : applyOp st op = st := by
  obtain ⟨msg, hm⟩ :=
    createTransaction_error_of_no_blocks op.recover op.ethersId op.randTag op.now st op.tx h
  simp [applyOp, hm]

/-- From the constructor's state, any sequence of client operations leaves
both private arrays empty. -/
theorem foldl_applyOp_initClientState (ops : List ClientOp) :
    ops.foldl applyOp initClientState = initClientState := by
  induction ops with
  | nil => rfl
  | cons op rest ih =>
    rw [List.foldl_cons, applyOp_of_no_blocks initClientState op rfl, ih]

/-- Claim C3: `createTransaction` can never return `{ success: true }`: the
private `blocks` array starts empty and no client operation ever adds to it
(the five request methods never touch the instance state, and
`createTransaction` itself throws — on the signature check or on the
`blocks[blocks.length - 1].height` access — before any mutation), so after any
sequence of operations both arrays are still empty and every further
`createTransaction` call fails. -/
theorem createTransaction_never_succeeds (ops : List ClientOp) :
    (ops.foldl applyOp initClientState).blocks = [] ∧
    (ops.foldl applyOp initClientState).transactions = [] ∧
    ∀ (recover : String → String → Option String) (ethersId : String → String)
      (randTag : String) (now : Int) (tx : TxInput),
      ∃ msg, (createTransaction recover ethersId randTag now
        (ops.foldl applyOp initClientState) tx).2 = Except.error msg := by
  rw [foldl_applyOp_initClientState]
  exact ⟨rfl, rfl, fun recover ethersId randTag now tx =>
    createTransaction_error_of_no_blocks recover ethersId randTag now
      initClientState tx rfl⟩

/-! ## C4: errors are surfaced by throwing on failed responses -/

/-- Claim C4: `NASADebrisClient.getDebrisData` and `getDebrisStatistics` throw
when the response status is not ok, and every `BlockchainClient` request
method (`getTransactions`, `getBlocks`, `getSmartContracts`,
`executeContract`, `getAnalytics`) throws — rethrowing the body's `error`
field — whenever the response reports failure via its `success` flag. -/
theorem clients_throw_on_failed_response :
    (∀ (p : DebrisParams) (resp : HttpResponse NASADebrisResponse),
       resp.ok = false →
       (getDebrisData p resp).2 = Except.error ("Failed to fetch debris data")) ∧
    (∀ resp : HttpResponse DebrisStatistics,
       resp.ok = false →
       (getDebrisStatistics resp).2 =
         Except.error ("Failed to fetch debris statistics")) ∧
    (∀ (baseUrl : String) (p : TxQueryParams)
       (resp : HttpResponse TransactionsEnvelope),
       resp.body.success = false →
       (getTransactions baseUrl p resp).2 = Except.error resp.body.error) ∧
    (∀ (baseUrl : String) (p : BlocksParams) (resp : HttpResponse BlocksEnvelope),
       resp.body.success = false →
       (getBlocks baseUrl p resp).2 = Except.error resp.body.error) ∧
    (∀ (baseUrl : String) (p : ContractsParams)
       (resp : HttpResponse ContractsEnvelope),
       resp.body.success = false →
       (getSmartContracts baseUrl p resp).2 = Except.error resp.body.error) ∧
    (∀ (baseUrl : String) (p : ExecParams) (resp : HttpResponse ExecEnvelope),
       resp.body.success = false →
       (executeContract baseUrl p resp).2 = Except.error resp.body.error) ∧
    (∀ (baseUrl timeframe : String) (resp : HttpResponse AnalyticsEnvelope),
       resp.body.success = false →
       (getAnalytics baseUrl timeframe resp).2 = Except.error resp.body.error) := by
  refine ⟨fun p resp h => ?_, fun resp h => ?_, fun b p resp h => ?_,
    fun b p resp h => ?_, fun b p resp h => ?_, fun b p resp h => ?_,
    fun b t resp h => ?_⟩
  · simp [getDebrisData, h]
  · simp [getDebrisStatistics, h]
  · simp [getTransactions, h]
  · simp [getBlocks, h]
  · simp [getSmartContracts, h]
  · simp [executeContract, h]
  · simp [getAnalytics, h]

/-- Witness for C4: every one of the seven request paths throws on a concrete
failed response. -/
theorem clients_throw_on_failed_response_witness :
    ((getDebrisData {}
        { ok := false, body := { data := [], totalCount := 0, lastUpdated := "x" } }).2 =
      Except.error ("Failed to fetch debris data")) ∧
    ((getDebrisStatistics
        { ok := false
          body := { totalObjects := 0, trackableObjects := 0,
                    collisionRisk := "low", lastUpdate := "x" } }).2 =
      Except.error ("Failed to fetch debris statistics")) ∧
    ((getTransactions ("/api/blockchain") {}
        { ok := true
          body := { success := false, data := [], total := 0,
                    error := some ("boom") } }).2 =
      Except.error (some ("boom"))) ∧
    ((getBlocks ("/api/blockchain") {}
        { ok := true
          body := { success := false, data := BlocksData.many [],
                    error := some ("boom") } }).2 =
      Except.error (some ("boom"))) ∧
    ((getSmartContracts ("/api/blockchain") {}
        { ok := true
          body := { success := false, data := ContractsData.many [],
                    error := some ("boom") } }).2 =
      Except.error (some ("boom"))) ∧
    ((executeContract ("/api/blockchain")
        { contractAddress := "0xc", functionName := "f", parameters := [] }
        { ok := true
          body := { success := false
                    data := { transactionHash := "", contractAddress := "",
                              functionName := "", gasUsed := 0, status := "",
                              blockNumber := none }
                    error := some ("boom") } }).2 =
      Except.error (some ("boom"))) ∧
    ((getAnalytics ("/api/blockchain") ("7d")
        { ok := true
          body := { success := false, data := { payload := "" },
                    error := some ("boom") } }).2 =
      Except.error (some ("boom"))) :=
  ⟨clients_throw_on_failed_response.1 _ _ rfl,
   clients_throw_on_failed_response.2.1 _ rfl,
   clients_throw_on_failed_response.2.2.1 _ _ _ rfl,
   clients_throw_on_failed_response.2.2.2.1 _ _ _ rfl,
   clients_throw_on_failed_response.2.2.2.2.1 _ _ _ rfl,
   clients_throw_on_failed_response.2.2.2.2.2.1 _ _ _ rfl,
   clients_throw_on_failed_response.2.2.2.2.2.2 _ _ _ rfl⟩

/-! ## C5: the wallet hook (corrected) -/

/-- Counterexample to claim C5 as stated: with the value `""` stored under
`"orbital-privateKey"`, a value is already stored, yet the hook takes the
falsy branch, creates a new wallet and overwrites the stored value — it does
not leave storage unmodified and does not return a wallet built from the
stored value. -/
theorem useWallet_overwrites_stored_empty_value :
    (useWalletEffect (fun _ => false) ("0xNEWKEY") (some (""))).storedAfter ≠
      some ("") ∧
    (useWalletEffect (fun _ => false) ("0xNEWKEY") (some (""))) =
      { storedAfter := some ("0xNEWKEY"), wallet := some ("0xNEWKEY") } := by
  constructor
  · decide
  · rfl

/-- Claim C5 as amended: on mount, when nothing (or the empty string, which is
falsy) is stored under `"orbital-privateKey"`, the hook creates a random
wallet, stores its private key, and returns it; when a non-empty value is
stored, storage is left unchanged and the hook returns the wallet constructed
from that value when it is a valid private key, and no wallet otherwise (the
construction error is caught). -/
theorem useWallet_generates_or_loads (validKey : String → Bool) (newKey : String) :
    useWalletEffect validKey newKey none =
      { storedAfter := some newKey, wallet := some newKey } ∧
    useWalletEffect validKey newKey (some ("")) =
      { storedAfter := some newKey, wallet := some newKey } ∧
    ∀ pk : String, pk ≠ "" →
      useWalletEffect validKey newKey (some pk) =
        { storedAfter := some pk
          wallet := if validKey pk then some pk else none } := by
  refine ⟨rfl, rfl, fun pk hpk => ?_⟩
  simp only [useWalletEffect]
  rw [if_neg hpk]
  by_cases h : validKey pk = true
  · rw [if_pos h, if_pos h]
  · rw [if_neg h, if_neg h]

/-- Witness for the amended C5 at a concrete input: a non-empty valid stored
key is loaded and storage is untouched. -/
theorem useWallet_generates_or_loads_witness :
    ("0xOLD" : String) ≠ "" ∧
    useWalletEffect (fun _ => true) ("0xNEW") (some ("0xOLD")) =
      { storedAfter := some ("0xOLD")
        wallet := if (fun _ => true) ("0xOLD") then some ("0xOLD") else none } :=
  ⟨by decide,
   (useWallet_generates_or_loads (fun _ => true) ("0xNEW")).2.2 ("0xOLD") (by decide)⟩

/-! ## C6: no blockchain invariant is checked on returned blocks -/

/-- Claim C6: for every response body with `success: true`, `getBlocks`
returns the body's block data (and `total`) exactly as received — in
particular no hash-chaining, Merkle-root, or nonce condition on the blocks is
computed or checked, since the result is the same whatever the blocks
contain. -/
theorem getBlocks_passes_data_unchanged (baseUrl : String) (p : BlocksParams)
    (resp : HttpResponse BlocksEnvelope) (h : resp.body.success = true) :
    (getBlocks baseUrl p resp).2 = Except.ok (resp.body.data, resp.body.total) := by
  simp [getBlocks, h]

/-- Witness for C6 at a concrete input: a successful response whose blocks
violate hash chaining is passed through unchanged. -/
theorem getBlocks_passes_data_unchanged_witness :
    hashChainOk unchainedBlocks = false ∧
    (getBlocks ("/api/blockchain") {} { ok := true, body := unchainedEnvelope }).2 =
      Except.ok (unchainedEnvelope.data, unchainedEnvelope.total) :=
  ⟨by decide,
   getBlocks_passes_data_unchanged ("/api/blockchain") {}
     { ok := true, body := unchainedEnvelope } rfl⟩

/-! ## C7: per-frame animation (corrected) -/

/-- Counterexample to claim C7 as stated: the `Furnace` frame is not a pure
function of the elapsed time. At the same elapsed time, the same wall clock
and the same random draw, two frames started from different retained
processing-ring rotations write different transforms
(`rotation.y += 0.03` accumulates); and at the same elapsed time the HUD
output differs for different `Math.random()` draws. -/
theorem furnace_frame_not_stateless :
    ((furnaceFrame constTrig 1 true 0 0 { processingRotY := 0 }).2.map
        FurnaceOutputs.processingRotY ≠
      (furnaceFrame constTrig 1 true 0 0 { processingRotY := 0.03 }).2.map
        FurnaceOutputs.processingRotY) ∧
    ((furnaceFrame constTrig 1 true 0 0 { processingRotY := 0 }).2.map
        FurnaceOutputs.hudOutput ≠
      (furnaceFrame constTrig 1 true 0 (1/2) { processingRotY := 0 }).2.map
        FurnaceOutputs.hudOutput) := by
  constructor
  · simp only [furnaceFrame, constTrig]
    norm_num
  · simp only [furnaceFrame, constTrig]
    norm_num

/-- Claim C7 as amended: the per-frame animation is driven by elapsed time but
is not uniformly stateless. The robotic-arm and 3D-printer frames are: their
transforms and HUD output are functions of the elapsed time alone (and, for
the arm, its mount-time phase), independent of the retained HUD memo state, so
two frame updates at the same elapsed time produce identical output. The
furnace and debris-collection arm, by contrast, retain mutable rotation state
across frames (`rotation += …`), and the furnace and debris HUDs read
wall-clock time and random values (the counterexample exhibits the furnace). -/
theorem arm_and_printer_frames_time_determined (T : Trig) (t : ℚ) (act : Bool) :
    (∀ (phase : ℚ) (hp1 hp2 : Int),
       (armFrame T t act { phase := phase, lastHudProgress := hp1 }).2 =
       (armFrame T t act { phase := phase, lastHudProgress := hp2 }).2) ∧
    (∀ s1 s2 : PrinterState,
       (printerFrame T t act s1).2 = (printerFrame T t act s2).2) := by
  constructor
  · intro phase hp1 hp2
    cases act <;> simp [armFrame]
  · intro s1 s2
    cases act <;> simp [printerFrame]

/-! ## C8: requests per call (corrected) -/

/-- Counterexample to claim C8 as stated: `createTransaction` is a method of
`BlockchainClient` and issues no HTTP request at all — its body contains no
`fetch` — so at this concrete call it does not issue exactly one request. -/
theorem createTransaction_issues_no_request :
    (createTransaction (fun _ _ => none) (fun s => s) "ab12cd34" 0
        initClientState txSample).1.length ≠ 1 := by
  decide

/-- Claim C8 as amended: no client operation retries: each of the seven
request methods of `NASADebrisClient` and `BlockchainClient` issues exactly
one HTTP request per call — whatever the parameters and however the response
turns out, so a failed response is never re-requested — while
`createTransaction` issues none. -/
theorem methods_issue_one_request :
    (∀ (p : DebrisParams) (resp : HttpResponse NASADebrisResponse),
       (getDebrisData p resp).1.length = 1) ∧
    (∀ resp : HttpResponse DebrisStatistics,
       (getDebrisStatistics resp).1.length = 1) ∧
    (∀ (b : String) (p : TxQueryParams) (resp : HttpResponse TransactionsEnvelope),
       (getTransactions b p resp).1.length = 1) ∧
    (∀ (b : String) (p : BlocksParams) (resp : HttpResponse BlocksEnvelope),
       (getBlocks b p resp).1.length = 1) ∧
    (∀ (b : String) (p : ContractsParams) (resp : HttpResponse ContractsEnvelope),
       (getSmartContracts b p resp).1.length = 1) ∧
    (∀ (b : String) (p : ExecParams) (resp : HttpResponse ExecEnvelope),
       (executeContract b p resp).1.length = 1) ∧
    (∀ (b tf : String) (resp : HttpResponse AnalyticsEnvelope),
       (getAnalytics b tf resp).1.length = 1) ∧
    (∀ (recover : String → String → Option String) (ethersId : String → String)
       (randTag : String) (now : Int) (st : ClientState) (tx : TxInput),
       (createTransaction recover ethersId randTag now st tx).1.length = 0) := by
  refine ⟨?_, ?_, ?_, ?_, ?_, ?_, ?_, ?_⟩ <;> intros <;> rfl

/-! ## C9: the `size` and `type` filters are silently ignored -/

/-- Claim C9: `getDebrisData` never serializes its `size` and `type`
parameters: every key of the issued query is one of `limit`, `altitudeMin`,
`altitudeMax`, and two calls differing only in `size` or `type` issue
identical requests. -/
theorem getDebrisData_ignores_size_and_type :
    (∀ p : DebrisParams,
       ((debrisQuery p).map Prod.fst).all
         (fun k => k == "limit" || k == "altitudeMin" || k == "altitudeMax") = true) ∧
    (∀ (p : DebrisParams) (sz : Option (Int × Int)) (ty : Option (List String))
       (resp : HttpResponse NASADebrisResponse),
       (getDebrisData { p with size := sz, type := ty } resp).1 =
       (getDebrisData p resp).1) := by
  constructor
  · intro p
    unfold debrisQuery
    cases truthyInt p.limit <;> cases p.altitude <;> simp
  · intro p sz ty resp
    rfl

/-! ## C10: zero-valued parameters are dropped from the request URL -/

/-- Claim C10: a `limit` of `0` in `getDebrisData`, `getTransactions` and
`getBlocks` — and a `height` of `0` in `getBlocks` — is never serialized into
the query, because each optional numeric parameter is included only when
truthy. -/
theorem zero_valued_params_not_serialized :
    (∀ p : DebrisParams,
       ((debrisQuery { p with limit := some 0 }).map Prod.fst).all
         (fun k => k != "limit") = true) ∧
    (∀ p : TxQueryParams,
       ((transactionsQuery { p with limit := some 0 }).map Prod.fst).all
         (fun k => k != "limit") = true) ∧
    (∀ p : BlocksParams,
       ((blocksQuery { p with limit := some 0 }).map Prod.fst).all
         (fun k => k != "limit") = true) ∧
    (∀ p : BlocksParams,
       ((blocksQuery { p with height := some 0 }).map Prod.fst).all
         (fun k => k != "height") = true) := by
  refine ⟨fun p => ?_, fun p => ?_, fun p => ?_, fun p => ?_⟩
  · unfold debrisQuery
    cases p.altitude <;> simp [truthyInt]
  · unfold transactionsQuery
    cases truthyStr p.type <;> cases truthyStr p.status <;> simp [truthyInt]
  · unfold blocksQuery
    cases truthyInt p.height <;> simp [truthyInt]
  · unfold blocksQuery
    cases truthyInt p.limit <;> simp [truthyInt]

end Nasafinal
